import Mathlib

/-!
Verification model of the hexagon `GraphTransferer` graph-lowering pass
(`tensorflow/core/kernels/hexagon/graph_transferer.h`).

The repository ships a declaration-only header: the constants
(`MAX_SUPPORTED_RANK`, `SHAPE_ARRAY_SIZE`), the parameter structs, the member
list (four output collections, node-name cache list, name-to-id cache map,
`strict_check_mode_{true}`) and the method signatures (including the `static`
qualifiers on the dry-run entry points) come from that header.  The method
bodies are not part of the source tree, so every behavioral definition below
is modelled from the specification's component contracts (identity cache,
shape-array codec, node classifier and registrar, load orchestrator) and is
marked as such in its doc comment.
-/

/-- From the header: `static constexpr int MAX_SUPPORTED_RANK = 5`. -/
def MAX_SUPPORTED_RANK : Nat := 5

/-- From the header: `static constexpr int SHAPE_ARRAY_SIZE = MAX_SUPPORTED_RANK - 1`. -/
def SHAPE_ARRAY_SIZE : Nat := MAX_SUPPORTED_RANK - 1

/-- A concrete tensor: its shape (dimension list; `int64` dims modelled as
`Nat` since concrete tensor dimensions are non-negative) and flat data. -/
structure TensorInfo where
  shape : List Nat
  data : List Int
  deriving DecidableEq

/-- Header struct `InputNodeInfo`: a declared graph input (name and concrete
tensor value). -/
structure InputNodeInfo where
  name : String
  tensor : TensorInfo
  deriving DecidableEq

/-- A graph node as the pass sees it: name, declared operation type, and input
edges, each an (upstream node name, output port) pair.  Models the external
`Node` objects of the graph being loaded. -/
structure NodeDef where
  name : String
  op : String
  inputs : List (String × Nat)
  deriving DecidableEq

/-- The abstract operation-definitions lookup capability
(`IGraphTransferOpsDefinitions`): whether an op type is supported, its
accelerator op id, and whether it carries padding/stride metadata. -/
structure OpsDefinitions where
  supported : String → Bool
  opId : String → Int
  requiresPadding : String → Bool

/-- Error kinds of the load pass, from the spec's error-handling design. -/
inductive LoadError where
  | unsupportedOperation : String → LoadError
  | shapeResolutionFailure : String → LoadError
  | rankExceeded : String → LoadError
  | orderingViolation : String → LoadError
  | graphParseFailure : String → LoadError
  | missingInput : String → LoadError
  deriving DecidableEq

/-- Header struct `NodeTransferParams` (one per registered non-constant
node). -/
structure NodeTransferParams where
  name : String
  node_id : Nat
  type : String
  soc_op_id : Int
  padding : String
  inputs_name : String
  inputs_size : Nat
  outputs_name : String
  outputs_size : Nat
  deriving DecidableEq

/-- Header struct `ConstNodeTransferParams`: the shape member is
`std::array<int64, MAX_SUPPORTED_RANK>`, modelled as a list whose length is
always `MAX_SUPPORTED_RANK`. -/
structure ConstNodeTransferParams where
  name : String
  node_id : Nat
  shape : List Nat
  data_name : String
  data_size : Nat
  deriving DecidableEq

/-- Header struct `NodeInputParams`: wiring of one node, as (producer dense
id, producer output port) pairs in positional order. -/
structure NodeInputParams where
  node_id : Nat
  input_node_id_and_output_port_list : List (Nat × Nat)
  deriving DecidableEq

/-- Header struct `NodeOutputParams`: maximum byte sizes per output port. -/
structure NodeOutputParams where
  node_id : Nat
  max_sizes : List Nat
  deriving DecidableEq

/-- The output tensor map (`std::unordered_map<string, Tensor*>`), modelled as
an association list from node name to concrete tensor. -/
abbrev OutputTensorMap := List (String × TensorInfo)

/-- Header struct `OutputTensorInfo`: dry-run result buffer plus the map into
it. -/
structure OutputTensorInfo where
  output_tensors : List TensorInfo
  output_tensor_map : OutputTensorMap
  deriving DecidableEq

/-- The pass object: the four Transfer Parameter Store collections, the
identity cache (ordered registry plus name-to-id map), and the strict-check
flag, mirroring the private members of `GraphTransferer`. -/
structure GraphTransferer where
  node_transfer_params_list : List NodeTransferParams
  const_node_transfer_params_list : List ConstNodeTransferParams
  node_input_params_list : List NodeInputParams
  node_output_params_list : List NodeOutputParams
  node_name_cache_list : List NodeDef
  node_name_to_id_cache_map : List (String × Nat)
  strict_check_mode : Bool
  deriving DecidableEq

/-- A freshly constructed pass: empty collections, empty cache, and strict
check mode enabled by default (header: `bool strict_check_mode_{true}`). -/
def emptyGraphTransferer : GraphTransferer :=
  { node_transfer_params_list := []
    const_node_transfer_params_list := []
    node_input_params_list := []
    node_output_params_list := []
    node_name_cache_list := []
    node_name_to_id_cache_map := []
    strict_check_mode := true }

/-- Header method `EnableStrictCheckMode`. -/
def EnableStrictCheckMode (gt : GraphTransferer) (enable : Bool) : GraphTransferer :=
  { gt with strict_check_mode := enable }

/-- First-match lookup in an association list keyed by strings; models lookup
in `std::unordered_map<string, _>`. -/
def assocLookup {α : Type} : List (String × α) → String → Option α
  | [], _ => none
  | p :: rest, k => if p.1 = k then some p.2 else assocLookup rest k

/-- The static shape-inference collaborator: per node name, the inferred
output shape, or `none` when any dimension is unknown (unusable, fall back to
the output tensor map / dry run). -/
abbrev ShapeInferenceFn := String → Option (List Nat)

/-- Modelled from the spec: `CacheNode` of the Node Identity Cache is missing
from the source (declaration-only header).  Contract: return the node's dense
id, assigning a new one equal to the current cache size on first sight and
appending the node to the ordered registry (`node_name_cache_list`) and the
name-to-id map (`node_name_to_id_cache_map`). -/
def CacheNode (gt : GraphTransferer) (node : NodeDef) : GraphTransferer × Nat :=
  match assocLookup gt.node_name_to_id_cache_map node.name with
  | some id => (gt, id)
  | none =>
    let id := gt.node_name_cache_list.length
    ({ gt with
        node_name_cache_list := gt.node_name_cache_list ++ [node]
        node_name_to_id_cache_map := gt.node_name_to_id_cache_map ++ [(node.name, id)] },
      id)

/-- Modelled from the spec: the cache-membership query (`isCached`) of the
Node Identity Cache; a node counts as cached when its name is a key of the
name-to-id cache map. -/
def IsCached (gt : GraphTransferer) (node : NodeDef) : Bool :=
  (assocLookup gt.node_name_to_id_cache_map node.name).isSome

/-- First declared input whose name matches, if any. -/
def findInput : List InputNodeInfo → String → Option InputNodeInfo
  | [], _ => none
  | i :: rest, nm => if i.name = nm then some i else findInput rest nm

/-- Modelled from the spec: header-declared `IsInputNode` — a node is a
declared graph input when its name appears in the input specification
list. -/
def IsInputNode (inputs : List InputNodeInfo) (nodeName : String) : Bool :=
  (findInput inputs nodeName).isSome

/-- Modelled from the spec: header-declared `AreAllInputsCached` — true iff
every input edge's producer node is already present in the registry. -/
def AreAllInputsCached (gt : GraphTransferer) (node : NodeDef) : Bool :=
  node.inputs.all (fun q => (assocLookup gt.node_name_to_id_cache_map q.1).isSome)

/-- Modelled from the spec: header-declared `BuildShapeArray` — the generic
shape-array codec, a fixed-capacity (`SHAPE_ARRAY_SIZE`) array holding the
trailing dimensions of the shape, zero-padded below capacity. -/
def BuildShapeArray (s : List Nat) : List Nat :=
  s.drop (s.length - SHAPE_ARRAY_SIZE) ++ List.replicate (SHAPE_ARRAY_SIZE - s.length) 0

/-- Modelled from the spec: header-declared `ToTensorShapeArray` — the same
`SHAPE_ARRAY_SIZE`-capacity encoding applied to a concrete tensor shape. -/
def ToTensorShapeArray (s : List Nat) : List Nat :=
  BuildShapeArray s

/-- Modelled from the spec: the encoding of a constant node's shape into the
capacity-`MAX_SUPPORTED_RANK` shape member of `ConstNodeTransferParams`;
ranks below capacity are zero/absent-padded. -/
def toConstNodeShapeArray (s : List Nat) : List Nat :=
  s.take MAX_SUPPORTED_RANK ++ List.replicate (MAX_SUPPORTED_RANK - s.length) 0

/-- Modelled from the spec: decoding a zero-padded constant-node shape array
back to a dimension list — the padding zeros are absent dimensions, so
trailing zeros are stripped. -/
def decodeShapeArray (a : List Nat) : List Nat :=
  (a.reverse.dropWhile (fun d => decide (d = 0))).reverse

/-- Modelled from the spec: rank validation of the Shape Array Codec — a rank
above the supported maximum is a failure in strict mode and is best-effort
truncated otherwise. -/
def checkRank (strict : Bool) (nodeName : String) (s : List Nat) :
    Except LoadError (List Nat) :=
  if s.length ≤ MAX_SUPPORTED_RANK then .ok s
  else if strict then .error (.rankExceeded nodeName)
  else .ok (s.take MAX_SUPPORTED_RANK)

/-- Modelled from the spec: a reshape is a pure flatten when the output shape
equals the input shape with trailing dimensions collapsed into their product
(including the fully collapsed form with a leading unit batch dimension, as
in input `[2,3,4]`, output `[1,24]`). -/
def isPureFlatten (inS outS : List Nat) : Bool :=
  decide (outS = [1, inS.prod]) ||
    (List.range inS.length).any (fun k => decide (outS = inS.take k ++ [(inS.drop k).prod]))

/-- Modelled from the spec: header-declared `IsNodeFlattenReshape` — true when
the node is a reshape op whose statically inferred output shape is a pure
collapse of its first input's shape (shapes read from the shape-inference
collaborator, as the header's `ShapeRefiner` argument does). -/
def IsNodeFlattenReshape (sf : ShapeInferenceFn) (node : NodeDef) : Bool :=
  if node.op = "Reshape" then
    match node.inputs with
    | [] => false
    | q :: _ =>
      match sf q.1, sf node.name with
      | some inS, some outS => isPureFlatten inS outS
      | _, _ => false
  else false

/-- Modelled from the spec: header-declared `CheckShape` — compare an actual
shape array against the shape recorded for the node in the output tensor map;
under strict check mode a mismatch is a hard failure, otherwise it is
tolerated. -/
def CheckShape (strict : Bool) (otm : OutputTensorMap) (nodeName : String)
    (actual : List Nat) : Except LoadError Unit :=
  match assocLookup otm nodeName with
  | some t =>
    if ToTensorShapeArray t.shape = actual then .ok ()
    else if strict then .error (.shapeResolutionFailure nodeName) else .ok ()
  | none => .ok ()

/-- Modelled from the spec: resolution of a node's output shape — static
inference if available and consistent with the output tensor map, else the
dry-run-observed (output tensor map) value; a shape resolvable by neither is a
hard failure in strict mode and a best-effort empty shape otherwise. -/
def resolveOutputShape (strict : Bool) (sf : ShapeInferenceFn)
    (otm : OutputTensorMap) (nodeName : String) : Except LoadError (List Nat) :=
  match sf nodeName with
  | some s =>
    match CheckShape strict otm nodeName (ToTensorShapeArray s) with
    | .error e => .error e
    | .ok _ =>
      match assocLookup otm nodeName with
      | some t =>
        if ToTensorShapeArray t.shape = ToTensorShapeArray s then .ok s else .ok t.shape
      | none => .ok s
  | none =>
    match assocLookup otm nodeName with
    | some t => .ok t.shape
    | none =>
      if strict then .error (.shapeResolutionFailure nodeName) else .ok []

/-- Modelled from the spec: header-declared `AppendNodeInputParams` — append
the node's wiring, each input edge resolved to its producer's already-assigned
dense id and output port, in positional order. -/
def AppendNodeInputParams (gt : GraphTransferer) (id : Nat) (node : NodeDef) :
    GraphTransferer :=
  { gt with
    node_input_params_list := gt.node_input_params_list ++
      [{ node_id := id
         input_node_id_and_output_port_list :=
           node.inputs.map
             (fun q => ((assocLookup gt.node_name_to_id_cache_map q.1).getD 0, q.2)) }] }

/-- Modelled from the spec: header-declared `AppendNodeOutputParams` — append
the node's output sizing, derived from its resolved output shape (element
count of the shape as the maximum size). -/
def AppendNodeOutputParams (strict : Bool) (sf : ShapeInferenceFn)
    (otm : OutputTensorMap) (gt : GraphTransferer) (id : Nat) (node : NodeDef) :
    Except LoadError GraphTransferer :=
  match resolveOutputShape strict sf otm node.name with
  | .error e => .error e
  | .ok s =>
    .ok { gt with
          node_output_params_list := gt.node_output_params_list ++
            [{ node_id := id, max_sizes := [s.prod] }] }

/-- Sentinel accelerator op id used when registering a declared graph input. -/
def INPUT_OP_ID : Int := -1

/-- Sentinel accelerator op id used when registering a flatten node. -/
def FLATTEN_OP_ID : Int := -3

/-- Modelled from the spec: header-declared `RegisterInputNode` — register a
declared graph input: cache it, append a Node Transfer Param with a sentinel
op id and no padding, and record output sizing from the declared tensor; its
producers are not recursed into and no input wiring is appended. -/
def RegisterInputNode (inputs : List InputNodeInfo) (gt : GraphTransferer)
    (node : NodeDef) : Except LoadError GraphTransferer :=
  let r := CacheNode gt node
  let declaredShape := ((findInput inputs node.name).map (fun i => i.tensor.shape)).getD []
  .ok { r.1 with
        node_transfer_params_list := r.1.node_transfer_params_list ++
          [{ name := node.name, node_id := r.2, type := node.op
             soc_op_id := INPUT_OP_ID, padding := "NONE"
             inputs_name := node.name, inputs_size := node.inputs.length
             outputs_name := node.name, outputs_size := 1 }]
        node_output_params_list := r.1.node_output_params_list ++
          [{ node_id := r.2, max_sizes := [declaredShape.prod] }] }

/-- Modelled from the spec: header-declared `RegisterConstantNode` — cache the
node, resolve its shape via static inference with fall-back to the output
tensor map (failure in strict mode when neither is usable), validate the rank,
append a Const Node Transfer Param with the capacity-5 shape array, and record
a Node Output Param sized from the constant. -/
def RegisterConstantNode (sf : ShapeInferenceFn) (otm : OutputTensorMap)
    (gt : GraphTransferer) (node : NodeDef) : Except LoadError GraphTransferer :=
  let r := CacheNode gt node
  match (match sf node.name with
         | some s => Except.ok s
         | none =>
           match assocLookup otm node.name with
           | some t => Except.ok t.shape
           | none =>
             if gt.strict_check_mode then Except.error (LoadError.shapeResolutionFailure node.name)
             else Except.ok ([] : List Nat)) with
  | .error e => .error e
  | .ok s0 =>
    match checkRank gt.strict_check_mode node.name s0 with
    | .error e => .error e
    | .ok s =>
      .ok { r.1 with
            const_node_transfer_params_list := r.1.const_node_transfer_params_list ++
              [{ name := node.name, node_id := r.2
                 shape := toConstNodeShapeArray s
                 data_name := node.name, data_size := s.prod }]
            node_output_params_list := r.1.node_output_params_list ++
              [{ node_id := r.2, max_sizes := [s.prod] }] }

/-- Modelled from the spec: the shared body of the step-4 register functions —
cache the node, append its Node Transfer Param, its input wiring, and its
output sizing. -/
def registerOpNode (typeTag : String) (socOpId : Int) (paddingStr : String)
    (sf : ShapeInferenceFn) (otm : OutputTensorMap) (gt : GraphTransferer)
    (node : NodeDef) : Except LoadError GraphTransferer :=
  let r := CacheNode gt node
  let gt2 :=
    { r.1 with
      node_transfer_params_list := r.1.node_transfer_params_list ++
        [{ name := node.name, node_id := r.2, type := typeTag
           soc_op_id := socOpId, padding := paddingStr
           inputs_name := node.name, inputs_size := node.inputs.length
           outputs_name := node.name, outputs_size := 1 }] }
  AppendNodeOutputParams gt.strict_check_mode sf otm
    (AppendNodeInputParams gt2 r.2 node) r.2 node

/-- Modelled from the spec: header-declared `RegisterNodeWithPaddingAndStrides`
— a padding/stride-bearing op is registered with its padding mode and normal
wiring; an op type absent from the lookup capability is a hard failure. -/
def RegisterNodeWithPaddingAndStrides (ops : OpsDefinitions)
    (sf : ShapeInferenceFn) (otm : OutputTensorMap) (gt : GraphTransferer)
    (node : NodeDef) : Except LoadError GraphTransferer :=
  if ops.supported node.op then
    registerOpNode node.op (ops.opId node.op) "SAME" sf otm gt node
  else .error (.unsupportedOperation node.name)

/-- Modelled from the spec: header-declared `RegisterFlattenNode` — a
degenerate flatten-reshape is registered as a lighter-weight flatten record
with a sentinel op id. -/
def RegisterFlattenNode (sf : ShapeInferenceFn) (otm : OutputTensorMap)
    (gt : GraphTransferer) (node : NodeDef) : Except LoadError GraphTransferer :=
  registerOpNode "FLATTEN" FLATTEN_OP_ID "NONE" sf otm gt node

/-- Modelled from the spec: header-declared `RegisterOutputNode` — same as a
generic node but flagged (type tag) so the downstream generator surfaces
it. -/
def RegisterOutputNode (ops : OpsDefinitions) (sf : ShapeInferenceFn)
    (otm : OutputTensorMap) (gt : GraphTransferer) (node : NodeDef) :
    Except LoadError GraphTransferer :=
  registerOpNode "OUTPUT" (ops.opId node.op) "NONE" sf otm gt node

/-- Modelled from the spec: header-declared `RegisterGenericNode` — a plain op
registered with its accelerator op id and normal wiring. -/
def RegisterGenericNode (ops : OpsDefinitions) (sf : ShapeInferenceFn)
    (otm : OutputTensorMap) (gt : GraphTransferer) (node : NodeDef) :
    Except LoadError GraphTransferer :=
  registerOpNode node.op (ops.opId node.op) "NONE" sf otm gt node

/-- Classification outcomes of the Node Classifier. -/
inductive NodeClass where
  | skip | input | const | padding | flatten | output | generic | unsupported | deferred
  deriving DecidableEq

/-- Modelled from the spec: the classification order of the Node Classifier —
already cached, declared input, constant, then (when all inputs are cached)
padding/stride op, flatten-reshape, requested output, generic; an op type
absent from the lookup capability is unsupported, and an uncached input is a
dependency-order violation. -/
def classifyNode (ops : OpsDefinitions) (sf : ShapeInferenceFn)
    (inputs : List InputNodeInfo) (outputNames : List String)
    (gt : GraphTransferer) (node : NodeDef) : NodeClass :=
  if IsCached gt node then .skip
  else if IsInputNode inputs node.name then .input
  else if node.op = "Const" then .const
  else if AreAllInputsCached gt node then
    if ops.requiresPadding node.op then .padding
    else if IsNodeFlattenReshape sf node then .flatten
    else if ops.supported node.op then
      if node.name ∈ outputNames then .output else .generic
    else .unsupported
  else .deferred

/-- Modelled from the spec: header-declared `RegisterNode` — dispatch one node
through the classifier to the matching register function; unsupported ops and
dependency-order violations are hard failures. -/
def RegisterNode (ops : OpsDefinitions) (sf : ShapeInferenceFn)
    (otm : OutputTensorMap) (inputs : List InputNodeInfo)
    (outputNames : List String) (gt : GraphTransferer) (node : NodeDef) :
    Except LoadError GraphTransferer :=
  match classifyNode ops sf inputs outputNames gt node with
  | .skip => .ok gt
  | .input => RegisterInputNode inputs gt node
  | .const => RegisterConstantNode sf otm gt node
  | .padding => RegisterNodeWithPaddingAndStrides ops sf otm gt node
  | .flatten => RegisterFlattenNode sf otm gt node
  | .output => RegisterOutputNode ops sf otm gt node
  | .generic => RegisterGenericNode ops sf otm gt node
  | .unsupported => .error (.unsupportedOperation node.name)
  | .deferred => .error (.orderingViolation node.name)

/-- Modelled from the spec: the orchestrator's loop over the dependency-ordered
node list; any registration failure aborts the whole load. -/
def loadNodes (ops : OpsDefinitions) (sf : ShapeInferenceFn)
    (otm : OutputTensorMap) (inputs : List InputNodeInfo)
    (outputNames : List String) : GraphTransferer → List NodeDef →
    Except LoadError GraphTransferer
  | gt, [] => .ok gt
  | gt, n :: rest =>
    match RegisterNode ops sf otm inputs outputNames gt n with
    | .error e => .error e
    | .ok gt2 => loadNodes ops sf otm inputs outputNames gt2 rest

/-- Modelled from the spec: header-declared `LoadGraphFromProto` — drive the
classifier over the graph's nodes (supplied in dependency order) and report
success or a descriptive failure. -/
def LoadGraphFromProto (ops : OpsDefinitions) (sf : ShapeInferenceFn)
    (graph : List NodeDef) (inputs : List InputNodeInfo)
    (outputNames : List String) (otm : OutputTensorMap) (gt : GraphTransferer) :
    Except LoadError GraphTransferer :=
  loadNodes ops sf otm inputs outputNames gt graph

/-- A zero-filled tensor matching a declared input's shape. -/
def zeroTensor (t : TensorInfo) : TensorInfo :=
  { shape := t.shape, data := List.replicate t.shape.prod 0 }

/-- The abstract tensor-execution collaborator used by dry run: given the graph
and effective inputs, the concrete output tensor of a named node, if it can be
produced. -/
abbrev ExecutorFn := List NodeDef → List InputNodeInfo → String → Option TensorInfo

/-- Modelled from the spec: header-declared static `DryRunInference` — execute
the graph for the requested output names using the supplied inputs (or
zero-filled tensors of the declared shapes when `initialize_by_zero`) and
return the materialized output tensors. -/
def DryRunInference (exec : ExecutorFn) (graph : List NodeDef)
    (inputs : List InputNodeInfo) (outputNames : List String)
    (initialize_by_zero : Bool) : Except LoadError (List TensorInfo) :=
  let effInputs :=
    if initialize_by_zero then
      inputs.map (fun i => { name := i.name, tensor := zeroTensor i.tensor })
    else inputs
  outputNames.mapM (fun nm =>
    match exec graph effInputs nm with
    | some t => Except.ok t
    | none => Except.error (LoadError.shapeResolutionFailure nm))

/-- Modelled from the spec: header-declared static `DryRunInferenceForAllNode`
— same, but materialize every node's output, returning the backing storage and
the map from node name into it. -/
def DryRunInferenceForAllNode (exec : ExecutorFn) (graph : List NodeDef)
    (inputs : List InputNodeInfo) (initialize_by_zero : Bool) :
    Except LoadError OutputTensorInfo :=
  match DryRunInference exec graph inputs (graph.map (fun n => n.name))
      initialize_by_zero with
  | .error e => .error e
  | .ok tensors =>
    .ok { output_tensors := tensors
          output_tensor_map := (graph.map (fun n => n.name)).zip tensors }

/-- The call-on-a-pass-object semantics of the static `DryRunInference`: a
`static` member function has no access to the instance, so the pass state is
returned unchanged alongside the result. -/
def dryRunInferenceOnTransferer (gt : GraphTransferer) (exec : ExecutorFn)
    (graph : List NodeDef) (inputs : List InputNodeInfo)
    (outputNames : List String) (initialize_by_zero : Bool) :
    GraphTransferer × Except LoadError (List TensorInfo) :=
  (gt, DryRunInference exec graph inputs outputNames initialize_by_zero)

/-- The call-on-a-pass-object semantics of the static
`DryRunInferenceForAllNode`. -/
def dryRunInferenceForAllNodeOnTransferer (gt : GraphTransferer)
    (exec : ExecutorFn) (graph : List NodeDef) (inputs : List InputNodeInfo)
    (initialize_by_zero : Bool) :
    GraphTransferer × Except LoadError OutputTensorInfo :=
  (gt, DryRunInferenceForAllNode exec graph inputs initialize_by_zero)

/-- The dense-id assignment the identity cache maintains: the i-th
first-registered name maps to id `start + i`. -/
def denseIdMapFrom (start : Nat) : List String → List (String × Nat)
  | [] => []
  | nm :: rest => (nm, start) :: denseIdMapFrom (start + 1) rest

/-- The structural invariant of the pass state: the name-to-id map is exactly
the dense first-registration-order assignment over the ordered registry, the
registered names are distinct, every recorded input-wiring entry references
only producer ids strictly below its consumer's id (itself below the cache
size), and every recorded constant shape array has the full capacity. -/
def StateInv (gt : GraphTransferer) : Prop :=
  gt.node_name_to_id_cache_map =
      denseIdMapFrom 0 (gt.node_name_cache_list.map NodeDef.name)
    ∧ (gt.node_name_cache_list.map NodeDef.name).Nodup
    ∧ (∀ p ∈ gt.node_input_params_list,
        p.node_id < gt.node_name_cache_list.length ∧
          ∀ q ∈ p.input_node_id_and_output_port_list, q.1 < p.node_id)
    ∧ (∀ c ∈ gt.const_node_transfer_params_list, c.shape.length = MAX_SUPPORTED_RANK)

/-! ### Basic lemmas about the association-list lookup and the dense-id map -/

theorem assocLookup_nil {α : Type} (k : String) :
    assocLookup ([] : List (String × α)) k = none := rfl

theorem assocLookup_append_of_some {α : Type} {m : List (String × α)} {k : String}
    {v : α} (m2 : List (String × α)) (h : assocLookup m k = some v) :
    assocLookup (m ++ m2) k = some v := by
  induction m with
  | nil => simp [assocLookup] at h
  | cons p rest ih =>
    by_cases hk : p.1 = k
    · simp [assocLookup, hk] at h ⊢
      exact h
    · simp [assocLookup, hk] at h ⊢
      exact ih h

theorem assocLookup_append_of_none {α : Type} {m : List (String × α)} {k : String}
    (m2 : List (String × α)) (h : assocLookup m k = none) :
    assocLookup (m ++ m2) k = assocLookup m2 k := by
  induction m with
  | nil => simp
  | cons p rest ih =>
    by_cases hk : p.1 = k
    · simp [assocLookup, hk] at h
    · simp [assocLookup, hk] at h ⊢
      exact ih h

theorem assocLookup_singleton_self {α : Type} (k : String) (v : α) :
    assocLookup [(k, v)] k = some v := by
  simp [assocLookup]

theorem denseIdMapFrom_append (start : Nat) (l : List String) (x : String) :
    denseIdMapFrom start (l ++ [x]) =
      denseIdMapFrom start l ++ [(x, start + l.length)] := by
  induction l generalizing start with
  | nil => simp [denseIdMapFrom]
  | cons a rest ih =>
    simp only [List.cons_append, denseIdMapFrom, List.length_cons, List.append_eq]
    rw [ih]
    have harith : start + 1 + rest.length = start + (rest.length + 1) := by omega
    rw [harith]

theorem assocLookup_denseIdMapFrom_some {start : Nat} {l : List String}
    {x : String} {v : Nat} (h : assocLookup (denseIdMapFrom start l) x = some v) :
    start ≤ v ∧ v < start + l.length ∧ x ∈ l := by
  induction l generalizing start with
  | nil => simp [denseIdMapFrom, assocLookup] at h
  | cons a rest ih =>
    by_cases hk : a = x
    · subst hk
      simp [denseIdMapFrom, assocLookup] at h
      subst h
      exact ⟨le_rfl, by simp, by simp⟩
    · simp [denseIdMapFrom, assocLookup, hk] at h
      rcases ih h with ⟨h1, h2, h3⟩
      exact ⟨by omega, by simp [List.length_cons]; omega, by simp [h3]⟩

theorem assocLookup_denseIdMapFrom_none {start : Nat} {l : List String}
    {x : String} : assocLookup (denseIdMapFrom start l) x = none ↔ x ∉ l := by
  induction l generalizing start with
  | nil => simp [denseIdMapFrom, assocLookup]
  | cons a rest ih =>
    by_cases hk : a = x
    · simp [denseIdMapFrom, assocLookup, hk]
    · simp only [denseIdMapFrom, assocLookup, List.mem_cons]
      rw [if_neg hk, ih]
      constructor
      · intro h hc
        rcases hc with hc | hc
        · exact hk hc.symm
        · exact h hc
      · intro h hc
        exact h (Or.inr hc)

theorem denseIdMapFrom_values (start : Nat) (l : List String) :
    (denseIdMapFrom start l).map Prod.snd = List.range' start l.length := by
  induction l generalizing start with
  | nil => simp [denseIdMapFrom]
  | cons a rest ih =>
    simp [denseIdMapFrom, List.range', ih]

theorem denseIdMapFrom_length (start : Nat) (l : List String) :
    (denseIdMapFrom start l).length = l.length := by
  induction l generalizing start with
  | nil => rfl
  | cons a rest ih => simp [denseIdMapFrom, ih]

/-! ### Lemmas about `CacheNode` and the state invariant -/

theorem lookup_lt_of_inv {gt : GraphTransferer} {x : String} {v : Nat}
    (hinv : StateInv gt) (h : assocLookup gt.node_name_to_id_cache_map x = some v) :
    v < gt.node_name_cache_list.length := by
  rcases hinv with ⟨hmap, -, -, -⟩
  rw [hmap] at h
  have h2 := (assocLookup_denseIdMapFrom_some h).2.1
  simpa using h2

theorem cacheNode_of_lookup_some {gt : GraphTransferer} {node : NodeDef} {v : Nat}
    (h : assocLookup gt.node_name_to_id_cache_map node.name = some v) :
    CacheNode gt node = (gt, v) := by
  simp [CacheNode, h]

theorem cacheNode_of_lookup_none {gt : GraphTransferer} {node : NodeDef}
    (h : assocLookup gt.node_name_to_id_cache_map node.name = none) :
    CacheNode gt node =
      ({ gt with
          node_name_cache_list := gt.node_name_cache_list ++ [node]
          node_name_to_id_cache_map := gt.node_name_to_id_cache_map ++
            [(node.name, gt.node_name_cache_list.length)] },
        gt.node_name_cache_list.length) := by
  simp [CacheNode, h]

theorem cacheNode_collections (gt : GraphTransferer) (node : NodeDef) :
    (CacheNode gt node).1.node_transfer_params_list = gt.node_transfer_params_list
    ∧ (CacheNode gt node).1.const_node_transfer_params_list =
        gt.const_node_transfer_params_list
    ∧ (CacheNode gt node).1.node_input_params_list = gt.node_input_params_list
    ∧ (CacheNode gt node).1.node_output_params_list = gt.node_output_params_list
    ∧ (CacheNode gt node).1.strict_check_mode = gt.strict_check_mode := by
  cases hc : assocLookup gt.node_name_to_id_cache_map node.name with
  | some v => simp [CacheNode, hc]
  | none => simp [CacheNode, hc]

theorem cacheNode_lookup_self (gt : GraphTransferer) (node : NodeDef) :
    assocLookup (CacheNode gt node).1.node_name_to_id_cache_map node.name =
      some (CacheNode gt node).2 := by
  cases hc : assocLookup gt.node_name_to_id_cache_map node.name with
  | some v => simp [CacheNode, hc]
  | none =>
    simp only [CacheNode, hc]
    rw [assocLookup_append_of_none _ hc]
    exact assocLookup_singleton_self _ _

theorem cacheNode_stateInv {gt : GraphTransferer} (node : NodeDef)
    (hinv : StateInv gt) : StateInv (CacheNode gt node).1 := by
  cases hc : assocLookup gt.node_name_to_id_cache_map node.name with
  | some v => simpa [CacheNode, hc] using hinv
  | none =>
    rcases hinv with ⟨hmap, hnd, hip, hcs⟩
    have hnotin : node.name ∉ gt.node_name_cache_list.map NodeDef.name := by
      rw [hmap] at hc
      exact assocLookup_denseIdMapFrom_none.mp hc
    simp only [CacheNode, hc]
    refine ⟨?_, ?_, ?_, ?_⟩
    · simp only [List.map_append, List.map_cons, List.map_nil]
      rw [denseIdMapFrom_append, hmap]
      simp [List.length_map]
    · simp only [List.map_append, List.map_cons, List.map_nil]
      rw [List.nodup_append]
      refine ⟨hnd, List.nodup_singleton _, ?_⟩
      intro a ha hb
      simp only [List.mem_singleton] at hb
      subst hb
      exact hnotin ha
    · intro p hp
      simp only at hp
      rcases hip p hp with ⟨h1, h2⟩
      refine ⟨?_, h2⟩
      simp only [List.length_append, List.length_cons, List.length_nil]
      omega
    · intro c hcmem
      simp only at hcmem
      exact hcs c hcmem

theorem cacheNode_id_lt {gt : GraphTransferer} {node : NodeDef}
    (hinv : StateInv gt) :
    (CacheNode gt node).2 < (CacheNode gt node).1.node_name_cache_list.length := by
  cases hc : assocLookup gt.node_name_to_id_cache_map node.name with
  | some v =>
    have := lookup_lt_of_inv hinv hc
    simpa [CacheNode, hc] using this
  | none => simp [CacheNode, hc]

/-! ### Shape lemmas for the register functions -/

theorem toConstNodeShapeArray_length (s : List Nat) :
    (toConstNodeShapeArray s).length = MAX_SUPPORTED_RANK := by
  simp only [toConstNodeShapeArray, List.length_append, List.length_take,
    List.length_replicate, MAX_SUPPORTED_RANK]
  omega

theorem stateInv_of_components {gt gt2 : GraphTransferer} (h : StateInv gt)
    (h1 : gt2.node_name_to_id_cache_map = gt.node_name_to_id_cache_map)
    (h2 : gt2.node_name_cache_list = gt.node_name_cache_list)
    (h3 : gt2.node_input_params_list = gt.node_input_params_list)
    (h4 : gt2.const_node_transfer_params_list = gt.const_node_transfer_params_list) :
    StateInv gt2 := by
  unfold StateInv at h ⊢
  rw [h1, h2, h3, h4]
  exact h

theorem areAllInputsCached_lookup {gt : GraphTransferer} {node : NodeDef}
    (hall : AreAllInputsCached gt node = true) :
    ∀ q ∈ node.inputs, ∃ v, assocLookup gt.node_name_to_id_cache_map q.1 = some v := by
  intro q hq
  have := (List.all_eq_true.mp hall) q hq
  rcases Option.isSome_iff_exists.mp this with ⟨v, hv⟩
  exact ⟨v, hv⟩

theorem registerInputNode_ok {inputs : List InputNodeInfo} {gt gt2 : GraphTransferer}
    {node : NodeDef} (h : RegisterInputNode inputs gt node = .ok gt2) :
    gt2.node_name_to_id_cache_map = (CacheNode gt node).1.node_name_to_id_cache_map
    ∧ gt2.node_name_cache_list = (CacheNode gt node).1.node_name_cache_list
    ∧ gt2.node_input_params_list = (CacheNode gt node).1.node_input_params_list
    ∧ gt2.const_node_transfer_params_list =
        (CacheNode gt node).1.const_node_transfer_params_list := by
  unfold RegisterInputNode at h
  simp only [Except.ok.injEq] at h
  subst h
  exact ⟨rfl, rfl, rfl, rfl⟩

theorem registerConstantNode_ok {sf : ShapeInferenceFn} {otm : OutputTensorMap}
    {gt gt2 : GraphTransferer} {node : NodeDef}
    (h : RegisterConstantNode sf otm gt node = .ok gt2) :
    ∃ s : List Nat,
      gt2.node_name_to_id_cache_map = (CacheNode gt node).1.node_name_to_id_cache_map
      ∧ gt2.node_name_cache_list = (CacheNode gt node).1.node_name_cache_list
      ∧ gt2.node_input_params_list = (CacheNode gt node).1.node_input_params_list
      ∧ gt2.const_node_transfer_params_list =
          (CacheNode gt node).1.const_node_transfer_params_list ++
            [{ name := node.name, node_id := (CacheNode gt node).2
               shape := toConstNodeShapeArray s
               data_name := node.name, data_size := s.prod }] := by
  unfold RegisterConstantNode at h
  cases h0 : (match sf node.name with
         | some s => Except.ok s
         | none =>
           match assocLookup otm node.name with
           | some t => Except.ok t.shape
           | none =>
             if gt.strict_check_mode then Except.error (LoadError.shapeResolutionFailure node.name)
             else Except.ok ([] : List Nat)) with
  | error e => rw [h0] at h; simp at h
  | ok s0 =>
    rw [h0] at h
    dsimp only at h
    cases h1 : checkRank gt.strict_check_mode node.name s0 with
    | error e => rw [h1] at h; simp at h
    | ok s =>
      rw [h1] at h
      simp only [Except.ok.injEq] at h
      subst h
      exact ⟨s, rfl, rfl, rfl, rfl⟩

theorem registerOpNode_ok {tag : String} {soc : Int} {pad : String}
    {sf : ShapeInferenceFn} {otm : OutputTensorMap} {gt gt2 : GraphTransferer}
    {node : NodeDef} (h : registerOpNode tag soc pad sf otm gt node = .ok gt2) :
    gt2.node_name_to_id_cache_map = (CacheNode gt node).1.node_name_to_id_cache_map
    ∧ gt2.node_name_cache_list = (CacheNode gt node).1.node_name_cache_list
    ∧ gt2.node_input_params_list = (CacheNode gt node).1.node_input_params_list ++
        [{ node_id := (CacheNode gt node).2
           input_node_id_and_output_port_list :=
             node.inputs.map (fun q =>
               ((assocLookup (CacheNode gt node).1.node_name_to_id_cache_map q.1).getD 0,
                 q.2)) }]
    ∧ gt2.const_node_transfer_params_list =
        (CacheNode gt node).1.const_node_transfer_params_list := by
  unfold registerOpNode AppendNodeOutputParams AppendNodeInputParams at h
  cases hr : resolveOutputShape gt.strict_check_mode sf otm node.name with
  | error e => rw [hr] at h; simp at h
  | ok s =>
    rw [hr] at h
    simp only [Except.ok.injEq] at h
    subst h
    exact ⟨rfl, rfl, rfl, rfl⟩

/-! ### Classifier extraction lemmas -/

theorem classifyNode_input_facts {ops : OpsDefinitions} {sf : ShapeInferenceFn}
    {inputs : List InputNodeInfo} {outs : List String} {gt : GraphTransferer}
    {node : NodeDef} (h : classifyNode ops sf inputs outs gt node = .input) :
    IsCached gt node = false ∧ IsInputNode inputs node.name = true := by
  unfold classifyNode at h
  split_ifs at h <;> simp_all

theorem classifyNode_const_facts {ops : OpsDefinitions} {sf : ShapeInferenceFn}
    {inputs : List InputNodeInfo} {outs : List String} {gt : GraphTransferer}
    {node : NodeDef} (h : classifyNode ops sf inputs outs gt node = .const) :
    IsCached gt node = false ∧ node.op = "Const" := by
  unfold classifyNode at h
  split_ifs at h <;> simp_all

theorem classifyNode_padding_facts {ops : OpsDefinitions} {sf : ShapeInferenceFn}
    {inputs : List InputNodeInfo} {outs : List String} {gt : GraphTransferer}
    {node : NodeDef} (h : classifyNode ops sf inputs outs gt node = .padding) :
    IsCached gt node = false ∧ AreAllInputsCached gt node = true
    ∧ ops.requiresPadding node.op = true := by
  unfold classifyNode at h
  split_ifs at h <;> simp_all

theorem classifyNode_flatten_facts {ops : OpsDefinitions} {sf : ShapeInferenceFn}
    {inputs : List InputNodeInfo} {outs : List String} {gt : GraphTransferer}
    {node : NodeDef} (h : classifyNode ops sf inputs outs gt node = .flatten) :
    IsCached gt node = false ∧ AreAllInputsCached gt node = true
    ∧ IsNodeFlattenReshape sf node = true := by
  unfold classifyNode at h
  split_ifs at h <;> simp_all

theorem classifyNode_output_facts {ops : OpsDefinitions} {sf : ShapeInferenceFn}
    {inputs : List InputNodeInfo} {outs : List String} {gt : GraphTransferer}
    {node : NodeDef} (h : classifyNode ops sf inputs outs gt node = .output) :
    IsCached gt node = false ∧ AreAllInputsCached gt node = true
    ∧ ops.supported node.op = true := by
  unfold classifyNode at h
  split_ifs at h <;> simp_all

theorem classifyNode_generic_facts {ops : OpsDefinitions} {sf : ShapeInferenceFn}
    {inputs : List InputNodeInfo} {outs : List String} {gt : GraphTransferer}
    {node : NodeDef} (h : classifyNode ops sf inputs outs gt node = .generic) :
    IsCached gt node = false ∧ AreAllInputsCached gt node = true
    ∧ ops.supported node.op = true := by
  unfold classifyNode at h
  split_ifs at h <;> simp_all

theorem classifyNode_skip_facts {ops : OpsDefinitions} {sf : ShapeInferenceFn}
    {inputs : List InputNodeInfo} {outs : List String} {gt : GraphTransferer}
    {node : NodeDef} (h : classifyNode ops sf inputs outs gt node = .skip) :
    IsCached gt node = true := by
  unfold classifyNode at h
  split_ifs at h <;> simp_all

theorem classifyNode_deferred_facts {ops : OpsDefinitions} {sf : ShapeInferenceFn}
    {inputs : List InputNodeInfo} {outs : List String} {gt : GraphTransferer}
    {node : NodeDef} (h : classifyNode ops sf inputs outs gt node = .deferred) :
    IsCached gt node = false ∧ AreAllInputsCached gt node = false := by
  unfold classifyNode at h
  split_ifs at h <;> simp_all

/-! ### Invariant preservation by the register functions -/

theorem isCached_false_lookup {gt : GraphTransferer} {node : NodeDef}
    (h : IsCached gt node = false) :
    assocLookup gt.node_name_to_id_cache_map node.name = none := by
  unfold IsCached at h
  cases hx : assocLookup gt.node_name_to_id_cache_map node.name with
  | none => rfl
  | some v => rw [hx] at h; simp at h

theorem cacheNode_map_shape (gt : GraphTransferer) (node : NodeDef) :
    (CacheNode gt node).1.node_name_to_id_cache_map = gt.node_name_to_id_cache_map
    ∨ (CacheNode gt node).1.node_name_to_id_cache_map =
        gt.node_name_to_id_cache_map ++ [(node.name, gt.node_name_cache_list.length)] := by
  cases hc : assocLookup gt.node_name_to_id_cache_map node.name with
  | some v => left; simp [CacheNode, hc]
  | none => right; simp [CacheNode, hc]

theorem registerOpNode_stateInv {tag : String} {soc : Int} {pad : String}
    {sf : ShapeInferenceFn} {otm : OutputTensorMap} {gt gt2 : GraphTransferer}
    {node : NodeDef} (hinv : StateInv gt) (hnc : IsCached gt node = false)
    (hall : AreAllInputsCached gt node = true)
    (h : registerOpNode tag soc pad sf otm gt node = .ok gt2) : StateInv gt2 := by
  have hnone := isCached_false_lookup hnc
  rcases registerOpNode_ok h with ⟨h1, h2, h3, h4⟩
  rcases cacheNode_stateInv node hinv with ⟨m1, m2, m3, m4⟩
  have hcache := cacheNode_of_lookup_none hnone
  refine ⟨by rw [h1, h2]; exact m1, by rw [h2]; exact m2, ?_, ?_⟩
  · intro p hp
    rw [h3] at hp
    rcases List.mem_append.mp hp with hp | hp
    · rcases m3 p hp with ⟨b1, b2⟩
      exact ⟨by rw [h2]; exact b1, b2⟩
    · simp only [List.mem_singleton] at hp
      subst hp
      refine ⟨by rw [h2]; exact cacheNode_id_lt hinv, ?_⟩
      intro q hq
      simp only [List.mem_map] at hq
      rcases hq with ⟨e, he, rfl⟩
      rcases areAllInputsCached_lookup hall e he with ⟨v, hv⟩
      have hv1 : assocLookup (CacheNode gt node).1.node_name_to_id_cache_map e.1 =
          some v := by
        rw [hcache]
        exact assocLookup_append_of_some _ hv
      rw [hv1]
      simp only [Option.getD_some]
      have hvlt := lookup_lt_of_inv hinv hv
      rw [hcache]
      exact hvlt
  · intro c hc
    rw [h4] at hc
    exact m4 c hc

theorem registerNode_stateInv {ops : OpsDefinitions} {sf : ShapeInferenceFn}
    {otm : OutputTensorMap} {inputs : List InputNodeInfo} {outs : List String}
    {gt gt2 : GraphTransferer} {node : NodeDef} (hinv : StateInv gt)
    (h : RegisterNode ops sf otm inputs outs gt node = .ok gt2) : StateInv gt2 := by
  unfold RegisterNode at h
  cases hcl : classifyNode ops sf inputs outs gt node <;> rw [hcl] at h <;>
    dsimp only at h
  case skip =>
    simp only [Except.ok.injEq] at h
    exact h ▸ hinv
  case input =>
    rcases registerInputNode_ok h with ⟨h1, h2, h3, h4⟩
    exact stateInv_of_components (cacheNode_stateInv node hinv) h1 h2 h3 h4
  case const =>
    rcases registerConstantNode_ok h with ⟨s, h1, h2, h3, h4⟩
    rcases cacheNode_stateInv node hinv with ⟨m1, m2, m3, m4⟩
    refine ⟨by rw [h1, h2]; exact m1, by rw [h2]; exact m2, ?_, ?_⟩
    · intro p hp
      rw [h3] at hp
      rcases m3 p hp with ⟨b1, b2⟩
      exact ⟨by rw [h2]; exact b1, b2⟩
    · intro c hc
      rw [h4] at hc
      rcases List.mem_append.mp hc with hc | hc
      · exact m4 c hc
      · simp only [List.mem_singleton] at hc
        subst hc
        exact toConstNodeShapeArray_length s
  case padding =>
    rcases classifyNode_padding_facts hcl with ⟨hnc, hall, -⟩
    unfold RegisterNodeWithPaddingAndStrides at h
    cases hsup : ops.supported node.op with
    | false => rw [hsup] at h; simp at h
    | true =>
      rw [hsup] at h
      simp only [if_true] at h
      exact registerOpNode_stateInv hinv hnc hall h
  case flatten =>
    rcases classifyNode_flatten_facts hcl with ⟨hnc, hall, -⟩
    exact registerOpNode_stateInv hinv hnc hall h
  case output =>
    rcases classifyNode_output_facts hcl with ⟨hnc, hall, -⟩
    exact registerOpNode_stateInv hinv hnc hall h
  case generic =>
    rcases classifyNode_generic_facts hcl with ⟨hnc, hall, -⟩
    exact registerOpNode_stateInv hinv hnc hall h
  case unsupported => simp at h
  case deferred => simp at h

/-! ### Load-level lemmas -/

theorem registerNode_map_shape {ops : OpsDefinitions} {sf : ShapeInferenceFn}
    {otm : OutputTensorMap} {inputs : List InputNodeInfo} {outs : List String}
    {gt gt2 : GraphTransferer} {node : NodeDef}
    (h : RegisterNode ops sf otm inputs outs gt node = .ok gt2) :
    gt2.node_name_to_id_cache_map = gt.node_name_to_id_cache_map
    ∨ gt2.node_name_to_id_cache_map =
        gt.node_name_to_id_cache_map ++ [(node.name, gt.node_name_cache_list.length)] := by
  unfold RegisterNode at h
  cases hcl : classifyNode ops sf inputs outs gt node <;> rw [hcl] at h <;>
    dsimp only at h
  case skip =>
    simp only [Except.ok.injEq] at h
    subst h
    exact Or.inl rfl
  case input =>
    rcases registerInputNode_ok h with ⟨h1, -, -, -⟩
    rw [h1]
    exact cacheNode_map_shape gt node
  case const =>
    rcases registerConstantNode_ok h with ⟨s, h1, -, -, -⟩
    rw [h1]
    exact cacheNode_map_shape gt node
  case padding =>
    unfold RegisterNodeWithPaddingAndStrides at h
    cases hsup : ops.supported node.op with
    | false => rw [hsup] at h; simp at h
    | true =>
      rw [hsup] at h
      simp only [if_true] at h
      rcases registerOpNode_ok h with ⟨h1, -, -, -⟩
      rw [h1]
      exact cacheNode_map_shape gt node
  case flatten =>
    rcases registerOpNode_ok h with ⟨h1, -, -, -⟩
    rw [h1]
    exact cacheNode_map_shape gt node
  case output =>
    rcases registerOpNode_ok h with ⟨h1, -, -, -⟩
    rw [h1]
    exact cacheNode_map_shape gt node
  case generic =>
    rcases registerOpNode_ok h with ⟨h1, -, -, -⟩
    rw [h1]
    exact cacheNode_map_shape gt node
  case unsupported => simp at h
  case deferred => simp at h

theorem registerNode_lookup_none {ops : OpsDefinitions} {sf : ShapeInferenceFn}
    {otm : OutputTensorMap} {inputs : List InputNodeInfo} {outs : List String}
    {gt gt2 : GraphTransferer} {node : NodeDef} {x : String}
    (h : RegisterNode ops sf otm inputs outs gt node = .ok gt2)
    (hx : x ≠ node.name)
    (hnone : assocLookup gt.node_name_to_id_cache_map x = none) :
    assocLookup gt2.node_name_to_id_cache_map x = none := by
  rcases registerNode_map_shape h with hm | hm
  · rw [hm]; exact hnone
  · rw [hm, assocLookup_append_of_none _ hnone]
    simp [assocLookup]
    intro hc
    exact absurd hc.symm hx

theorem loadNodes_stateInv {ops : OpsDefinitions} {sf : ShapeInferenceFn}
    {otm : OutputTensorMap} {inputs : List InputNodeInfo} {outs : List String} :
    ∀ {l : List NodeDef} {gt gt2 : GraphTransferer}, StateInv gt →
      loadNodes ops sf otm inputs outs gt l = .ok gt2 → StateInv gt2 := by
  intro l
  induction l with
  | nil =>
    intro gt gt2 hinv h
    simp only [loadNodes, Except.ok.injEq] at h
    exact h ▸ hinv
  | cons n rest ih =>
    intro gt gt2 hinv h
    unfold loadNodes at h
    cases hr : RegisterNode ops sf otm inputs outs gt n with
    | error e => rw [hr] at h; simp at h
    | ok gt1 =>
      rw [hr] at h
      exact ih (registerNode_stateInv hinv hr) h

theorem stateInv_empty : StateInv emptyGraphTransferer := by
  refine ⟨rfl, List.nodup_nil, ?_, ?_⟩
  · intro p hp
    simp [emptyGraphTransferer] at hp
  · intro c hc
    simp [emptyGraphTransferer] at hc

/-! ### Concrete artifacts used by the witnesses -/

/-- A lookup capability that supports every op type without padding. -/
def opsAll : OpsDefinitions :=
  { supported := fun _ => true, opId := fun _ => 7, requiresPadding := fun _ => false }

/-- A shape-inference collaborator that infers shape `[1]` for every node. -/
def sfOne : ShapeInferenceFn := fun _ => some [1]

/-- A two-node graph in dependency order: `b` consumes `a`. -/
def graphW1 : List NodeDef :=
  [{ name := "a", op := "OpA", inputs := [] },
   { name := "b", op := "OpB", inputs := [("a", 0)] }]

/-- The pass state produced by successfully loading `graphW1`. -/
def gtW1 : GraphTransferer :=
  match LoadGraphFromProto opsAll sfOne graphW1 [] [] [] emptyGraphTransferer with
  | .ok g => g
  | .error _ => emptyGraphTransferer

/-- A two-node graph in dependency order: `y` consumes `x`. -/
def graphW2 : List NodeDef :=
  [{ name := "x", op := "OpA", inputs := [] },
   { name := "y", op := "OpB", inputs := [("x", 0)] }]

/-- The pass state produced by successfully loading `graphW2`. -/
def gtW2 : GraphTransferer :=
  match LoadGraphFromProto opsAll sfOne graphW2 [] [] [] emptyGraphTransferer with
  | .ok g => g
  | .error _ => emptyGraphTransferer

/-! ### Claim theorems -/

/-- Claim C1: after a successful load (from a fresh pass), the dense ids
assigned by the node identity cache are exactly the map produced by
first-registration order (each node's id is the cache size at its first
caching), the registered names are distinct, and the assigned ids form exactly
the contiguous range `[0, N)` where `N` is the number of distinct registered
nodes. -/
theorem claim1_dense_ids_contiguous (ops : OpsDefinitions) (sf : ShapeInferenceFn)
    (graph : List NodeDef) (inputs : List InputNodeInfo) (outs : List String)
    (otm : OutputTensorMap) (gt2 : GraphTransferer)
    (h : LoadGraphFromProto ops sf graph inputs outs otm emptyGraphTransferer = .ok gt2) :
    gt2.node_name_to_id_cache_map =
        denseIdMapFrom 0 (gt2.node_name_cache_list.map NodeDef.name)
    ∧ (gt2.node_name_cache_list.map NodeDef.name).Nodup
    ∧ gt2.node_name_to_id_cache_map.map Prod.snd =
        List.range gt2.node_name_cache_list.length := by
  rcases loadNodes_stateInv stateInv_empty h with ⟨m1, m2, -, -⟩
  refine ⟨m1, m2, ?_⟩
  rw [m1, denseIdMapFrom_values, List.length_map, ← List.range_eq_range']

/-- Witness for C1 at a concrete two-node graph whose load succeeds. -/
theorem claim1_witness :
    LoadGraphFromProto opsAll sfOne graphW1 [] [] [] emptyGraphTransferer =
        Except.ok gtW1
    ∧ gtW1.node_name_to_id_cache_map.map Prod.snd =
        List.range gtW1.node_name_cache_list.length := by
  refine ⟨rfl, ?_⟩
  exact (claim1_dense_ids_contiguous opsAll sfOne graphW1 [] [] [] gtW1 rfl).2.2

/-- Claim C2: after a successful load (from a fresh pass), every Node Input
Param entry references only producer ids registered in the identity cache
(each referenced producer id is among the assigned dense ids), and every
referenced producer id is at most the consumer's own id. -/
theorem claim2_producers_registered_before_consumers (ops : OpsDefinitions)
    (sf : ShapeInferenceFn) (graph : List NodeDef) (inputs : List InputNodeInfo)
    (outs : List String) (otm : OutputTensorMap) (gt2 : GraphTransferer)
    (h : LoadGraphFromProto ops sf graph inputs outs otm emptyGraphTransferer = .ok gt2)
    (p : NodeInputParams) (hp : p ∈ gt2.node_input_params_list)
    (q : Nat × Nat) (hq : q ∈ p.input_node_id_and_output_port_list) :
    q.1 ≤ p.node_id ∧ q.1 ∈ gt2.node_name_to_id_cache_map.map Prod.snd := by
  rcases loadNodes_stateInv stateInv_empty h with ⟨m1, -, m3, -⟩
  rcases m3 p hp with ⟨b1, b2⟩
  have hqlt := b2 q hq
  refine ⟨Nat.le_of_lt hqlt, ?_⟩
  rw [m1, denseIdMapFrom_values]
  rw [List.mem_range'_1]
  have : q.1 < gt2.node_name_cache_list.length := lt_trans hqlt b1
  rw [List.length_map]
  omega

/-- Witness for C2 at a concrete edge `x → y`: the wiring entry of `y`
references producer id 0, which is at most `y`'s id 1 and among the assigned
ids. -/
theorem claim2_witness :
    LoadGraphFromProto opsAll sfOne graphW2 [] [] [] emptyGraphTransferer =
        Except.ok gtW2
    ∧ (0 ≤ 1 ∧ 0 ∈ gtW2.node_name_to_id_cache_map.map Prod.snd) := by
  refine ⟨rfl, ?_⟩
  exact claim2_producers_registered_before_consumers opsAll sfOne graphW2 [] [] []
    gtW2 rfl { node_id := 1, input_node_id_and_output_port_list := [(0, 0)] }
    (by decide) (0, 0) (by decide)

/-- A concrete node used by the C3 witness. -/
def nodeA : NodeDef := { name := "a", op := "OpA", inputs := [] }

/-- A pass state in which `nodeA` is already cached. -/
def gtCachedA : GraphTransferer := (CacheNode emptyGraphTransferer nodeA).1

/-- Claim C3: registering an already-registered node is idempotent — a second
cache call returns the same dense id and the same state as the first, and
re-registering a cached node returns the state unchanged, appending nothing to
any of the four Transfer Parameter Store collections. -/
theorem claim3_register_idempotent (gt : GraphTransferer) (node : NodeDef)
    (ops : OpsDefinitions) (sf : ShapeInferenceFn) (otm : OutputTensorMap)
    (inputs : List InputNodeInfo) (outs : List String)
    (h : IsCached gt node = true) :
    CacheNode (CacheNode gt node).1 node = ((CacheNode gt node).1, (CacheNode gt node).2)
    ∧ RegisterNode ops sf otm inputs outs gt node = .ok gt := by
  constructor
  · exact cacheNode_of_lookup_some (cacheNode_lookup_self gt node)
  · unfold RegisterNode classifyNode
    rw [h]
    simp

/-- Witness for C3: a state with `nodeA` cached, on which re-registration
returns the state unchanged. -/
theorem claim3_witness :
    IsCached gtCachedA nodeA = true
    ∧ RegisterNode opsAll sfOne [] [] [] gtCachedA nodeA = Except.ok gtCachedA := by
  refine ⟨by decide, ?_⟩
  exact (claim3_register_idempotent gtCachedA nodeA opsAll sfOne [] [] []
    (by decide)).2

/-- Two distinct concrete nodes carrying the same name, for the C9 witness. -/
def nodeN1 : NodeDef := { name := "n", op := "OpA", inputs := [] }

/-- Second node with the same name but different op and inputs. -/
def nodeN2 : NodeDef := { name := "n", op := "OpB", inputs := [("z", 0)] }

/-- Claim C9: node identity is the name string — cache membership depends only
on the name, and caching a second, distinct node that carries the same name
returns the first node's dense id and does not register a separate entry (the
ordered registry is unchanged). -/
theorem claim9_identity_is_node_name (gt : GraphTransferer) (n1 n2 : NodeDef)
    (h : n1.name = n2.name) :
    IsCached gt n1 = IsCached gt n2
    ∧ CacheNode (CacheNode gt n1).1 n2 = ((CacheNode gt n1).1, (CacheNode gt n1).2)
    ∧ (CacheNode (CacheNode gt n1).1 n2).1.node_name_cache_list =
        (CacheNode gt n1).1.node_name_cache_list := by
  have hl := cacheNode_lookup_self gt n1
  rw [h] at hl
  have hc := cacheNode_of_lookup_some hl
  refine ⟨?_, hc, ?_⟩
  · unfold IsCached
    rw [h]
  · rw [hc]

/-- Witness for C9: two distinct nodes named `n`; the second cache call returns
the first one's id with no new registry entry. -/
theorem claim9_witness :
    nodeN1.name = nodeN2.name ∧ nodeN1 ≠ nodeN2
    ∧ CacheNode (CacheNode emptyGraphTransferer nodeN1).1 nodeN2 =
        ((CacheNode emptyGraphTransferer nodeN1).1,
          (CacheNode emptyGraphTransferer nodeN1).2) := by
  refine ⟨rfl, by decide, ?_⟩
  exact (claim9_identity_is_node_name emptyGraphTransferer nodeN1 nodeN2 rfl).2.1

/-- Claim C10: the dry-run entry points are static — invoked on any pass
state, they leave the whole state (identity cache and all four Transfer
Parameter Store collections) unchanged, and their results depend only on their
arguments, never on the pass state. -/
theorem claim10_dry_run_state_frame (gt : GraphTransferer) (exec : ExecutorFn)
    (graph : List NodeDef) (inputs : List InputNodeInfo) (outs : List String)
    (z : Bool) :
    (dryRunInferenceOnTransferer gt exec graph inputs outs z).1 = gt
    ∧ (dryRunInferenceOnTransferer gt exec graph inputs outs z).2 =
        (dryRunInferenceOnTransferer emptyGraphTransferer exec graph inputs outs z).2
    ∧ (dryRunInferenceForAllNodeOnTransferer gt exec graph inputs z).1 = gt
    ∧ (dryRunInferenceForAllNodeOnTransferer gt exec graph inputs z).2 =
        (dryRunInferenceForAllNodeOnTransferer emptyGraphTransferer exec graph inputs z).2 := by
  exact ⟨rfl, rfl, rfl, rfl⟩

/-! ### Shape-codec decoding lemmas -/

theorem dropWhile_zero_replicate_append (k : Nat) (l : List Nat) :
    (List.replicate k 0 ++ l).dropWhile (fun d => decide (d = 0)) =
      l.dropWhile (fun d => decide (d = 0)) := by
  induction k with
  | zero => simp
  | succ k ih =>
    rw [List.replicate_succ, List.cons_append, List.dropWhile_cons]
    simpa using ih

theorem dropWhile_zero_of_pos {l : List Nat} (h : ∀ d ∈ l, 0 < d) :
    l.dropWhile (fun d => decide (d = 0)) = l := by
  cases l with
  | nil => rfl
  | cons a t =>
    have ha : 0 < a := h a (by simp)
    rw [List.dropWhile_cons]
    have hd : (decide (a = 0)) = false := by
      simp only [decide_eq_false_iff_not]
      omega
    rw [hd]
    simp

/-- Counterexample to C7 as stated: the constant-node shape arrays of `[2, 0]`
and `[2]` coincide (zero padding is indistinguishable from a genuine trailing
zero dimension), so decoding cannot reproduce `[2, 0]` although its rank is
within bounds. -/
theorem claim7_counterexample :
    toConstNodeShapeArray [2, 0] = toConstNodeShapeArray [2]
    ∧ decodeShapeArray (toConstNodeShapeArray [2, 0]) ≠ [2, 0]
    ∧ ([2, 0] : List Nat).length ≤ MAX_SUPPORTED_RANK := by
  decide

/-- Claim C7 (amended): encoding a concrete shape of rank at most 5 whose
dimensions are all positive into the constant-node shape array and decoding it
reproduces the original dimensions, and encoding a rank-0 (scalar) shape
yields the all-zero/absent array without failure. -/
theorem claim7_shape_codec_round_trip (s : List Nat)
    (hlen : s.length ≤ MAX_SUPPORTED_RANK) (hpos : ∀ d ∈ s, 0 < d) :
    decodeShapeArray (toConstNodeShapeArray s) = s
    ∧ toConstNodeShapeArray [] = List.replicate MAX_SUPPORTED_RANK 0 := by
  constructor
  · unfold toConstNodeShapeArray decodeShapeArray
    rw [List.take_of_length_le hlen, List.reverse_append, List.reverse_replicate,
      dropWhile_zero_replicate_append, dropWhile_zero_of_pos, List.reverse_reverse]
    intro d hd
    exact hpos d (List.mem_reverse.mp hd)
  · decide

/-- Witness for the amended C7 at the concrete shape `[2, 3, 4]`. -/
theorem claim7_witness :
    ([2, 3, 4] : List Nat).length ≤ MAX_SUPPORTED_RANK
    ∧ decodeShapeArray (toConstNodeShapeArray [2, 3, 4]) = [2, 3, 4] := by
  refine ⟨by decide, ?_⟩
  exact (claim7_shape_codec_round_trip [2, 3, 4] (by decide) (by decide)).1

/-- A shape-inference collaborator for the constant-node scenario. -/
def sfSeven : ShapeInferenceFn := fun _ => some [7]

/-- A one-constant graph. -/
def graphW3 : List NodeDef := [{ name := "c", op := "Const", inputs := [] }]

/-- The pass state produced by successfully loading `graphW3`. -/
def gtW3 : GraphTransferer :=
  match LoadGraphFromProto opsAll sfSeven graphW3 [] [] [] emptyGraphTransferer with
  | .ok g => g
  | .error _ => emptyGraphTransferer

/-- Claim C8: the generic shape array has fixed capacity
`SHAPE_ARRAY_SIZE = MAX_SUPPORTED_RANK - 1 = 4` and holds the trailing
dimensions (rank at most `MAX_SUPPORTED_RANK`), the constant-node shape array
has capacity `MAX_SUPPORTED_RANK = 5` with zero/absent padding below capacity
(an invariant of every registered constant entry), and a rank above the
supported maximum is rejected in strict mode and best-effort truncated
otherwise. -/
theorem claim8_shape_array_capacities :
    SHAPE_ARRAY_SIZE = 4
    ∧ SHAPE_ARRAY_SIZE = MAX_SUPPORTED_RANK - 1
    ∧ MAX_SUPPORTED_RANK = 5
    ∧ (∀ s : List Nat, (BuildShapeArray s).length = SHAPE_ARRAY_SIZE)
    ∧ (∀ s : List Nat, s.length ≤ SHAPE_ARRAY_SIZE →
        BuildShapeArray s = s ++ List.replicate (SHAPE_ARRAY_SIZE - s.length) 0)
    ∧ (∀ s : List Nat, s.length = MAX_SUPPORTED_RANK → BuildShapeArray s = s.drop 1)
    ∧ (∀ s : List Nat, (toConstNodeShapeArray s).length = MAX_SUPPORTED_RANK)
    ∧ (∀ s : List Nat, s.length ≤ MAX_SUPPORTED_RANK →
        toConstNodeShapeArray s = s ++ List.replicate (MAX_SUPPORTED_RANK - s.length) 0)
    ∧ (∀ (nm : String) (s : List Nat), MAX_SUPPORTED_RANK < s.length →
        checkRank true nm s = .error (.rankExceeded nm)
        ∧ checkRank false nm s = .ok (s.take MAX_SUPPORTED_RANK))
    ∧ (∀ (ops : OpsDefinitions) (sf : ShapeInferenceFn) (graph : List NodeDef)
        (inputs : List InputNodeInfo) (outs : List String) (otm : OutputTensorMap)
        (gt2 : GraphTransferer),
        LoadGraphFromProto ops sf graph inputs outs otm emptyGraphTransferer = .ok gt2 →
        ∀ c ∈ gt2.const_node_transfer_params_list,
          c.shape.length = MAX_SUPPORTED_RANK) := by
  refine ⟨rfl, rfl, rfl, ?_, ?_, ?_, toConstNodeShapeArray_length, ?_, ?_, ?_⟩
  · intro s
    simp only [BuildShapeArray, List.length_append, List.length_drop,
      List.length_replicate, SHAPE_ARRAY_SIZE, MAX_SUPPORTED_RANK]
    omega
  · intro s hs
    unfold BuildShapeArray
    have h0 : s.length - SHAPE_ARRAY_SIZE = 0 := Nat.sub_eq_zero_of_le hs
    rw [h0, List.drop_zero]
  · intro s hs
    unfold BuildShapeArray
    rw [hs]
    simp [MAX_SUPPORTED_RANK, SHAPE_ARRAY_SIZE]
  · intro s hs
    unfold toConstNodeShapeArray
    rw [List.take_of_length_le hs]
  · intro nm s hs
    have hn : ¬ s.length ≤ MAX_SUPPORTED_RANK := by omega
    constructor
    · unfold checkRank
      rw [if_neg hn]
      simp
    · unfold checkRank
      rw [if_neg hn]
      simp
  · intro ops sf graph inputs outs otm gt2 h
    exact (loadNodes_stateInv stateInv_empty h).2.2.2

/-- Witness for C8: concrete encodings, a concrete rank-6 rejection and
truncation, and a concrete registered constant entry of full capacity. -/
theorem claim8_witness :
    BuildShapeArray [10, 20] = [10, 20, 0, 0]
    ∧ toConstNodeShapeArray [1, 2, 3] = [1, 2, 3, 0, 0]
    ∧ checkRank true "z" [1, 2, 3, 4, 5, 6] = Except.error (LoadError.rankExceeded "z")
    ∧ checkRank false "z" [1, 2, 3, 4, 5, 6] = Except.ok [1, 2, 3, 4, 5]
    ∧ LoadGraphFromProto opsAll sfSeven graphW3 [] [] [] emptyGraphTransferer =
        Except.ok gtW3
    ∧ (ConstNodeTransferParams.mk "c" 0 [7, 0, 0, 0, 0] "c" 7).shape.length =
        MAX_SUPPORTED_RANK := by
  obtain ⟨-, -, -, -, h5, -, -, h8, h9, h10⟩ := claim8_shape_array_capacities
  refine ⟨?_, ?_, ?_, ?_, rfl, ?_⟩
  · exact (h5 [10, 20] (by decide)).trans (by decide)
  · exact (h8 [1, 2, 3] (by decide)).trans (by decide)
  · exact (h9 "z" [1, 2, 3, 4, 5, 6] (by decide)).1
  · exact (h9 "z" [1, 2, 3, 4, 5, 6] (by decide)).2.trans rfl
  · exact h10 opsAll sfSeven graphW3 [] [] [] gtW3 rfl
      (ConstNodeTransferParams.mk "c" 0 [7, 0, 0, 0, 0] "c" 7) (by decide)

/-- The producer node feeding the reshape under test. -/
def nodeI : NodeDef := { name := "i", op := "InputOp", inputs := [] }

/-- The reshape node under test, consuming `i`. -/
def nodeR : NodeDef := { name := "r", op := "Reshape", inputs := [("i", 0)] }

/-- A pass state in which the reshape's producer is already registered. -/
def gtWithI : GraphTransferer := (CacheNode emptyGraphTransferer nodeI).1

/-- Shape inference for the flatten case `[2,3,4] → [24]`. -/
def sfFlatA : ShapeInferenceFn := fun nm =>
  if nm = "i" then some [2, 3, 4] else if nm = "r" then some [24] else none

/-- Shape inference for the flatten case `[2,3,4] → [1,24]`. -/
def sfFlatB : ShapeInferenceFn := fun nm =>
  if nm = "i" then some [2, 3, 4] else if nm = "r" then some [1, 24] else none

/-- Shape inference for the non-flatten reshape `[2,3,4] → [3,2,4]`. -/
def sfFlatC : ShapeInferenceFn := fun nm =>
  if nm = "i" then some [2, 3, 4] else if nm = "r" then some [3, 2, 4] else none

/-- The state produced by registering the flatten reshape on top of
`gtWithI`. -/
def gtFlattenResult : GraphTransferer :=
  match RegisterNode opsAll sfFlatA [] [] [] gtWithI nodeR with
  | .ok g => g
  | .error _ => emptyGraphTransferer

/-- Claim C6: a reshape whose effect is a pure flatten — input `[2,3,4]` with
output `[24]` or `[1,24]` — is classified and registered as a flatten node
(lightweight record with the flatten sentinel op id), while a reshape whose
output `[3,2,4]` is not a pure dimension-collapsing view of its input is
classified as a generic node. -/
theorem claim6_flatten_detection :
    classifyNode opsAll sfFlatA [] [] gtWithI nodeR = NodeClass.flatten
    ∧ classifyNode opsAll sfFlatB [] [] gtWithI nodeR = NodeClass.flatten
    ∧ classifyNode opsAll sfFlatC [] [] gtWithI nodeR = NodeClass.generic
    ∧ IsNodeFlattenReshape sfFlatA nodeR = true
    ∧ IsNodeFlattenReshape sfFlatC nodeR = false
    ∧ RegisterNode opsAll sfFlatA [] [] [] gtWithI nodeR = Except.ok gtFlattenResult
    ∧ gtFlattenResult.node_transfer_params_list.map NodeTransferParams.type = ["FLATTEN"]
    ∧ gtFlattenResult.node_transfer_params_list.map NodeTransferParams.soc_op_id =
        [FLATTEN_OP_ID]
    ∧ gtFlattenResult.node_input_params_list =
        [{ node_id := 1, input_node_id_and_output_port_list := [(0, 0)] }] := by
  refine ⟨by decide, by decide, by decide, by decide, by decide, rfl, by decide,
    by decide, by decide⟩

/-! ### Evaluation lemmas for the strict-mode scenario -/

theorem isNodeFlattenReshape_no_inputs (sf : ShapeInferenceFn) (n : NodeDef)
    (h : n.inputs = []) : IsNodeFlattenReshape sf n = false := by
  unfold IsNodeFlattenReshape
  rw [h]
  split <;> rfl

theorem classifyNode_single_generic (ops : OpsDefinitions) (sf : ShapeInferenceFn)
    (nm op : String) (gt0 : GraphTransferer)
    (hmap : gt0.node_name_to_id_cache_map = [])
    (hop : op ≠ "Const") (hpad : ops.requiresPadding op = false)
    (hsup : ops.supported op = true) :
    classifyNode ops sf [] [] gt0 { name := nm, op := op, inputs := [] } =
      NodeClass.generic := by
  unfold classifyNode
  simp [IsCached, hmap, assocLookup, IsInputNode, findInput, hop,
    AreAllInputsCached, hpad, hsup,
    isNodeFlattenReshape_no_inputs sf { name := nm, op := op, inputs := [] } rfl]

theorem checkShape_mismatch_strict {otm : OutputTensorMap} {nm : String}
    {t : TensorInfo} {a : List Nat} (hotm : assocLookup otm nm = some t)
    (hne : ToTensorShapeArray t.shape ≠ a) :
    CheckShape true otm nm a = .error (.shapeResolutionFailure nm) := by
  unfold CheckShape
  rw [hotm]
  dsimp only
  rw [if_neg hne]
  rfl

theorem checkShape_mismatch_relaxed {otm : OutputTensorMap} {nm : String}
    {t : TensorInfo} {a : List Nat} (hotm : assocLookup otm nm = some t)
    (hne : ToTensorShapeArray t.shape ≠ a) :
    CheckShape false otm nm a = .ok () := by
  unfold CheckShape
  rw [hotm]
  dsimp only
  rw [if_neg hne]
  rfl

theorem resolveOutputShape_mismatch_strict {sf : ShapeInferenceFn}
    {otm : OutputTensorMap} {nm : String} {s : List Nat} {t : TensorInfo}
    (hsf : sf nm = some s) (hotm : assocLookup otm nm = some t)
    (hne : ToTensorShapeArray t.shape ≠ ToTensorShapeArray s) :
    resolveOutputShape true sf otm nm = .error (.shapeResolutionFailure nm) := by
  unfold resolveOutputShape
  rw [hsf]
  dsimp only
  rw [checkShape_mismatch_strict hotm hne]

theorem resolveOutputShape_mismatch_relaxed {sf : ShapeInferenceFn}
    {otm : OutputTensorMap} {nm : String} {s : List Nat} {t : TensorInfo}
    (hsf : sf nm = some s) (hotm : assocLookup otm nm = some t)
    (hne : ToTensorShapeArray t.shape ≠ ToTensorShapeArray s) :
    resolveOutputShape false sf otm nm = .ok t.shape := by
  unfold resolveOutputShape
  rw [hsf]
  dsimp only
  rw [checkShape_mismatch_relaxed hotm hne]
  dsimp only
  rw [hotm]
  dsimp only
  rw [if_neg hne]

theorem registerOpNode_resolve_error {tag : String} {soc : Int} {pad : String}
    {sf : ShapeInferenceFn} {otm : OutputTensorMap} {gt : GraphTransferer}
    {node : NodeDef} {e : LoadError}
    (h : resolveOutputShape gt.strict_check_mode sf otm node.name = .error e) :
    registerOpNode tag soc pad sf otm gt node = .error e := by
  unfold registerOpNode AppendNodeOutputParams
  rw [h]

theorem registerOpNode_resolve_ok {tag : String} {soc : Int} {pad : String}
    {sf : ShapeInferenceFn} {otm : OutputTensorMap} {gt : GraphTransferer}
    {node : NodeDef} {s : List Nat}
    (h : resolveOutputShape gt.strict_check_mode sf otm node.name = .ok s) :
    ∃ gt2, registerOpNode tag soc pad sf otm gt node = .ok gt2
      ∧ gt2.node_output_params_list =
          (CacheNode gt node).1.node_output_params_list ++
            [{ node_id := (CacheNode gt node).2, max_sizes := [s.prod] }] := by
  unfold registerOpNode AppendNodeOutputParams AppendNodeInputParams
  rw [h]
  exact ⟨_, rfl, rfl⟩

theorem loadNodes_single (ops : OpsDefinitions) (sf : ShapeInferenceFn)
    (otm : OutputTensorMap) (ins : List InputNodeInfo) (outs : List String)
    (gt : GraphTransferer) (n : NodeDef) :
    loadNodes ops sf otm ins outs gt [n] = RegisterNode ops sf otm ins outs gt n := by
  unfold loadNodes
  cases h : RegisterNode ops sf otm ins outs gt n with
  | error e => rfl
  | ok gt2 => rfl

/-- Claim C4: for a node whose statically inferred shape `s` disagrees with
the shape recorded for it in the output tensor map (dry-run-observed shape
`tshape`), the load fails under strict check mode — which is the default of a
fresh pass — and succeeds when strict check mode is disabled, with the
dry-run value winning (the recorded output sizing is derived from `tshape`,
not `s`). -/
theorem claim4_strict_mode_shape_mismatch (nm op : String) (ops : OpsDefinitions)
    (s tshape : List Nat) (tdata : List Int) (hop : op ≠ "Const")
    (hpad : ops.requiresPadding op = false) (hsup : ops.supported op = true)
    (hne : ToTensorShapeArray tshape ≠ ToTensorShapeArray s) :
    emptyGraphTransferer.strict_check_mode = true
    ∧ (∀ gt2, LoadGraphFromProto ops (fun x => if x = nm then some s else none)
        [{ name := nm, op := op, inputs := [] }] [] []
        [(nm, { shape := tshape, data := tdata })] emptyGraphTransferer ≠ .ok gt2)
    ∧ (∃ gt2, LoadGraphFromProto ops (fun x => if x = nm then some s else none)
        [{ name := nm, op := op, inputs := [] }] [] []
        [(nm, { shape := tshape, data := tdata })]
        (EnableStrictCheckMode emptyGraphTransferer false) = .ok gt2
        ∧ gt2.node_output_params_list =
            [{ node_id := 0, max_sizes := [tshape.prod] }]) := by
  have hsf : (fun x => if x = nm then some s else none) nm = some s := by simp
  have hotm : assocLookup [(nm, ({ shape := tshape, data := tdata } : TensorInfo))] nm
      = some { shape := tshape, data := tdata } := by simp [assocLookup]
  have hne2 : ToTensorShapeArray ({ shape := tshape, data := tdata } : TensorInfo).shape
      ≠ ToTensorShapeArray s := hne
  refine ⟨rfl, ?_, ?_⟩
  · intro gt2 hcon
    have hcl := classifyNode_single_generic ops (fun x => if x = nm then some s else none)
      nm op emptyGraphTransferer rfl hop hpad hsup
    unfold LoadGraphFromProto at hcon
    rw [loadNodes_single] at hcon
    unfold RegisterNode at hcon
    rw [hcl] at hcon
    dsimp only at hcon
    unfold RegisterGenericNode at hcon
    have hres : resolveOutputShape emptyGraphTransferer.strict_check_mode
        (fun x => if x = nm then some s else none)
        [(nm, { shape := tshape, data := tdata })]
        ({ name := nm, op := op, inputs := [] } : NodeDef).name =
        .error (.shapeResolutionFailure nm) :=
      resolveOutputShape_mismatch_strict hsf hotm hne2
    rw [registerOpNode_resolve_error hres] at hcon
    simp at hcon
  · have hcl := classifyNode_single_generic ops (fun x => if x = nm then some s else none)
      nm op (EnableStrictCheckMode emptyGraphTransferer false) rfl hop hpad hsup
    have hres : resolveOutputShape
        (EnableStrictCheckMode emptyGraphTransferer false).strict_check_mode
        (fun x => if x = nm then some s else none)
        [(nm, { shape := tshape, data := tdata })]
        ({ name := nm, op := op, inputs := [] } : NodeDef).name = .ok tshape :=
      resolveOutputShape_mismatch_relaxed hsf hotm hne2
    rcases @registerOpNode_resolve_ok op (ops.opId op) "NONE"
      (fun x => if x = nm then some s else none)
      [(nm, { shape := tshape, data := tdata })]
      (EnableStrictCheckMode emptyGraphTransferer false)
      { name := nm, op := op, inputs := [] } tshape hres with ⟨gt2, hok, hout⟩
    refine ⟨gt2, ?_, ?_⟩
    · unfold LoadGraphFromProto
      rw [loadNodes_single]
      unfold RegisterNode
      rw [hcl]
      dsimp only
      unfold RegisterGenericNode
      exact hok
    · rw [hout]
      rfl

/-- The state produced by the relaxed-mode load of the mismatch scenario. -/
def gtW4 : GraphTransferer :=
  match LoadGraphFromProto opsAll (fun x => if x = "n" then some [2] else none)
      [{ name := "n", op := "Op", inputs := [] }] [] []
      [("n", { shape := [3], data := [] })]
      (EnableStrictCheckMode emptyGraphTransferer false) with
  | .ok g => g
  | .error _ => emptyGraphTransferer

/-- Witness for C4: inferred shape `[2]` against dry-run shape `[3]` — the
default-strict load fails, and the relaxed load records the dry-run-derived
size 3. -/
theorem claim4_witness :
    (LoadGraphFromProto opsAll (fun x => if x = "n" then some [2] else none)
        [{ name := "n", op := "Op", inputs := [] }] [] []
        [("n", { shape := [3], data := [] })] emptyGraphTransferer ≠
      Except.ok emptyGraphTransferer)
    ∧ ToTensorShapeArray [3] ≠ ToTensorShapeArray [2]
    ∧ gtW4.node_output_params_list = [{ node_id := 0, max_sizes := [3] }] := by
  refine ⟨?_, by decide, by decide⟩
  exact (claim4_strict_mode_shape_mismatch "n" "Op" opsAll [2] [3] [] (by decide)
    rfl rfl (by decide)).2.1 emptyGraphTransferer

/-! ### Unsupported-operation lemmas -/

theorem registerNode_unsupported_error {ops : OpsDefinitions} {sf : ShapeInferenceFn}
    {otm : OutputTensorMap} {inputs : List InputNodeInfo} {outs : List String}
    {gt : GraphTransferer} {n : NodeDef}
    (hnone : assocLookup gt.node_name_to_id_cache_map n.name = none)
    (hni : IsInputNode inputs n.name = false) (hnc : n.op ≠ "Const")
    (hns : ops.supported n.op = false) (hnf : IsNodeFlattenReshape sf n = false) :
    ∃ e, RegisterNode ops sf otm inputs outs gt n = .error e := by
  unfold RegisterNode
  cases hcl : classifyNode ops sf inputs outs gt n <;> dsimp only
  case skip =>
    have hf := classifyNode_skip_facts hcl
    unfold IsCached at hf
    rw [hnone] at hf
    simp at hf
  case input =>
    have hf := (classifyNode_input_facts hcl).2
    rw [hni] at hf
    simp at hf
  case const =>
    exact absurd (classifyNode_const_facts hcl).2 hnc
  case padding =>
    refine ⟨.unsupportedOperation n.name, ?_⟩
    unfold RegisterNodeWithPaddingAndStrides
    rw [hns]
    simp
  case flatten =>
    have hf := (classifyNode_flatten_facts hcl).2.2
    rw [hnf] at hf
    simp at hf
  case output =>
    have hf := (classifyNode_output_facts hcl).2.2
    rw [hns] at hf
    simp at hf
  case generic =>
    have hf := (classifyNode_generic_facts hcl).2.2
    rw [hns] at hf
    simp at hf
  case unsupported => exact ⟨.unsupportedOperation n.name, rfl⟩
  case deferred => exact ⟨.orderingViolation n.name, rfl⟩

theorem registerNode_unsupported_named {ops : OpsDefinitions} {sf : ShapeInferenceFn}
    {otm : OutputTensorMap} {inputs : List InputNodeInfo} {outs : List String}
    {gt : GraphTransferer} {n : NodeDef}
    (hnone : assocLookup gt.node_name_to_id_cache_map n.name = none)
    (hni : IsInputNode inputs n.name = false) (hnc : n.op ≠ "Const")
    (hns : ops.supported n.op = false) (hnf : IsNodeFlattenReshape sf n = false)
    (hall : AreAllInputsCached gt n = true) :
    RegisterNode ops sf otm inputs outs gt n = .error (.unsupportedOperation n.name) := by
  unfold RegisterNode
  cases hcl : classifyNode ops sf inputs outs gt n <;> dsimp only
  case skip =>
    have hf := classifyNode_skip_facts hcl
    unfold IsCached at hf
    rw [hnone] at hf
    simp at hf
  case input =>
    have hf := (classifyNode_input_facts hcl).2
    rw [hni] at hf
    simp at hf
  case const =>
    exact absurd (classifyNode_const_facts hcl).2 hnc
  case padding =>
    unfold RegisterNodeWithPaddingAndStrides
    rw [hns]
    simp
  case flatten =>
    have hf := (classifyNode_flatten_facts hcl).2.2
    rw [hnf] at hf
    simp at hf
  case output =>
    have hf := (classifyNode_output_facts hcl).2.2
    rw [hns] at hf
    simp at hf
  case generic =>
    have hf := (classifyNode_generic_facts hcl).2.2
    rw [hns] at hf
    simp at hf
  case deferred =>
    have hf := (classifyNode_deferred_facts hcl).2
    rw [hall] at hf
    simp at hf

theorem loadNodes_unsupported_fails {ops : OpsDefinitions} {sf : ShapeInferenceFn}
    {otm : OutputTensorMap} {inputs : List InputNodeInfo} {outs : List String}
    {n : NodeDef} (hni : IsInputNode inputs n.name = false) (hnc : n.op ≠ "Const")
    (hns : ops.supported n.op = false) (hnf : IsNodeFlattenReshape sf n = false) :
    ∀ (l : List NodeDef) (gt : GraphTransferer), n ∈ l →
      assocLookup gt.node_name_to_id_cache_map n.name = none →
      (∀ m ∈ l, m.name = n.name → m = n) →
      ∀ gt2, loadNodes ops sf otm inputs outs gt l ≠ .ok gt2 := by
  intro l
  induction l with
  | nil =>
    intro gt hmem
    simp at hmem
  | cons m rest ih =>
    intro gt hmem hnone huniq gt2 hcon
    unfold loadNodes at hcon
    cases hr : RegisterNode ops sf otm inputs outs gt m with
    | error e => rw [hr] at hcon; simp at hcon
    | ok gt1 =>
      rw [hr] at hcon
      by_cases hm : m = n
      · subst hm
        rcases @registerNode_unsupported_error ops sf otm inputs outs gt m
          hnone hni hnc hns hnf with ⟨e, he⟩
        rw [he] at hr
        simp at hr
      · have hmemr : n ∈ rest := by
          rcases List.mem_cons.mp hmem with h | h
          · exact absurd h.symm hm
          · exact h
        have hname : n.name ≠ m.name := by
          intro hx
          exact hm (huniq m (List.mem_cons_self m rest) hx.symm)
        have hnone1 := registerNode_lookup_none hr hname hnone
        exact ih gt1 hmemr hnone1
          (fun x hx hxe => huniq x (List.mem_cons_of_mem m hx) hxe) gt2 hcon

/-- A lookup capability that supports no op type at all. -/
def opsNone : OpsDefinitions :=
  { supported := fun _ => false, opId := fun _ => -99, requiresPadding := fun _ => false }

/-- A declared graph input whose op type the lookup does not support. -/
def nodeX : NodeDef := { name := "x", op := "UnknownOp", inputs := [] }

/-- The input specification declaring `x` with a concrete tensor. -/
def inputX : InputNodeInfo := { name := "x", tensor := { shape := [1, 4], data := [] } }

/-- The state produced by loading the single declared-input graph under
`opsNone`. -/
def gtW5 : GraphTransferer :=
  match LoadGraphFromProto opsNone sfOne [nodeX] [inputX] ["x"] [] emptyGraphTransferer with
  | .ok g => g
  | .error _ => emptyGraphTransferer

/-- Counterexample to C5 as stated: the graph references op type `UnknownOp`,
which the lookup capability reports as unsupported, yet the load succeeds,
because the node carrying it is a declared graph input and is registered with
a sentinel op id without consulting the lookup. -/
theorem claim5_counterexample :
    opsNone.supported nodeX.op = false
    ∧ LoadGraphFromProto opsNone sfOne [nodeX] [inputX] ["x"] [] emptyGraphTransferer =
        Except.ok gtW5 := by
  exact ⟨rfl, rfl⟩

/-- Claim C5 (amended): if the graph contains a node whose operation type the
lookup capability reports as unsupported, and that node is neither a declared
graph input, nor a constant, nor a flatten-degenerate reshape (all of which
are registered without consulting the lookup for the node's own op type), then
the load never returns success; moreover, when registration reaches that node
with all of its inputs cached, the error is an UnsupportedOperation naming
that node. -/
theorem claim5_unsupported_operation (ops : OpsDefinitions) (sf : ShapeInferenceFn)
    (otm : OutputTensorMap) (inputs : List InputNodeInfo) (outs : List String)
    (graph : List NodeDef) (n : NodeDef) (hmem : n ∈ graph)
    (hni : IsInputNode inputs n.name = false) (hnc : n.op ≠ "Const")
    (hns : ops.supported n.op = false) (hnf : IsNodeFlattenReshape sf n = false)
    (huniq : ∀ m ∈ graph, m.name = n.name → m = n) :
    (∀ gt2, LoadGraphFromProto ops sf graph inputs outs otm emptyGraphTransferer ≠
        .ok gt2)
    ∧ (∀ gt : GraphTransferer,
        assocLookup gt.node_name_to_id_cache_map n.name = none →
        AreAllInputsCached gt n = true →
        RegisterNode ops sf otm inputs outs gt n =
          .error (.unsupportedOperation n.name)) := by
  constructor
  · intro gt2
    exact loadNodes_unsupported_fails hni hnc hns hnf graph emptyGraphTransferer
      hmem rfl huniq gt2
  · intro gt hnone hall
    exact registerNode_unsupported_named hnone hni hnc hns hnf hall

/-- A non-input, non-constant, non-reshape node with an unsupported op. -/
def nodeY : NodeDef := { name := "y", op := "Foo", inputs := [] }

/-- Witness for the amended C5: loading a graph containing `y : Foo` under the
empty lookup capability cannot succeed, and registering `y` directly yields an
UnsupportedOperation error naming `y`. -/
theorem claim5_witness :
    (LoadGraphFromProto opsNone sfOne [nodeY] [] [] [] emptyGraphTransferer ≠
        Except.ok emptyGraphTransferer)
    ∧ RegisterNode opsNone sfOne [] [] [] emptyGraphTransferer nodeY =
        Except.error (LoadError.unsupportedOperation "y") := by
  have h := claim5_unsupported_operation opsNone sfOne [] [] [] [nodeY] nodeY
    (by simp) (by decide) (by decide) rfl (by decide)
    (by intro m hm _; simpa using hm)
  exact ⟨h.1 emptyGraphTransferer, h.2 emptyGraphTransferer rfl rfl⟩
